import Mathlib

set_option autoImplicit false
set_option maxRecDepth 8000
set_option maxHeartbeats 1600000
set_option linter.unusedVariables false

/-
Shallow embedding of src/renderer/renderer.rs (maku693/steel-tadpole).
The wgpu device is modelled as a resource allocator: a counter of fresh
resource ids together with the ordered log of create_texture calls.
Texture views carry the identity, label, size and format of the texture
they view.  Pass objects store exactly what their Rust constructors are
given (input views and output format) plus a fresh resource id standing
for the GPU pipeline objects the constructor creates.  render is modelled
as a pure function from the renderer state to the list of render-pass
scopes it records, in order, each scope carrying its attachments,
load/store operations and draw calls.
-/

namespace SteelTadpole

/-- Pixel formats this program mentions (wgpu::TextureFormat), plus a
stand-in for an arbitrary negotiated surface format. -/
inductive TextureFormat
  | rgba16Float
  | depth32Float
  | bgra8Unorm
deriving DecidableEq

/-- const HDR_TEXTURE_FORMAT: wgpu::TextureFormat = wgpu::TextureFormat::Rgba16Float. -/
def HDR_TEXTURE_FORMAT : TextureFormat := TextureFormat.rgba16Float

/-- const DEPTH_TEXTURE_FORMAT: wgpu::TextureFormat = wgpu::TextureFormat::Depth32Float. -/
def DEPTH_TEXTURE_FORMAT : TextureFormat := TextureFormat.depth32Float

/-- wgpu::TextureUsages flags requested by the program. -/
inductive TextureUsage
  | TEXTURE_BINDING
  | RENDER_ATTACHMENT
deriving DecidableEq

/-- One wgpu::Device::create_texture call, as logged by the device model. -/
structure TextureAlloc where
  label : String
  width : Nat
  height : Nat
  format : TextureFormat
deriving DecidableEq

/-- The wgpu device, modelled as an allocator: a counter handing out fresh
resource ids and the ordered log of texture allocations performed. -/
structure Device where
  nextId : Nat
  allocs : List TextureAlloc
deriving DecidableEq

/-- The command queue handle (opaque). -/
inductive Queue
  | mk
deriving DecidableEq

/-- A view of a texture: the identity of the underlying texture resource
plus the label, size and format it was created with. -/
structure TextureView where
  texId : Nat
  label : String
  width : Nat
  height : Nat
  format : TextureFormat
deriving DecidableEq

instance : Inhabited TextureView :=
  ⟨{ texId := 0, label := "", width := 0, height := 0, format := TextureFormat.rgba16Float }⟩

/-- wgpu::Color with exactly representable component values. -/
structure Color where
  r : Rat
  g : Rat
  b : Rat
  a : Rat
deriving DecidableEq

/-- wgpu::Color::TRANSPARENT. -/
def Color.TRANSPARENT : Color := { r := 0, g := 0, b := 0, a := 0 }

/-- wgpu::LoadOp. -/
inductive LoadOp (α : Type)
  | clear (value : α)
  | load
deriving DecidableEq

/-- wgpu::Operations. -/
structure Operations (α : Type) where
  load : LoadOp α
  store : Bool
deriving DecidableEq

/-- The view bound as a color attachment: either a RenderTargets view or
the per-frame surface texture view acquired from the presentation surface. -/
inductive AttachmentView
  | target (v : TextureView)
  | surfaceFrame
deriving DecidableEq

/-- wgpu::RenderPassColorAttachment. -/
structure RenderPassColorAttachment where
  view : AttachmentView
  resolve_target : Option AttachmentView
  ops : Operations Color
deriving DecidableEq

/-- wgpu::RenderPassDepthStencilAttachment. -/
structure RenderPassDepthStencilAttachment where
  view : TextureView
  depth_ops : Option (Operations Rat)
  stencil_ops : Option (Operations Rat)
deriving DecidableEq

/-- A draw call recorded into a render-pass scope: which pass instance drew
(its resource id) and which input views its pipeline samples. -/
inductive DrawCall
  | particle (id : Nat)
  | bright_pass (id : Nat) (src : TextureView)
  | blur (id : Nat) (src : TextureView)
  | add (id : Nat) (srcs : List TextureView)
  | copy (id : Nat) (src : TextureView)
  | compose (id : Nat) (color : TextureView) (bloom : TextureView)
deriving DecidableEq

/-- The pass-instance resource id a draw call was issued by. -/
def DrawCall.passId : DrawCall → Nat
  | .particle i => i
  | .bright_pass i _ => i
  | .blur i _ => i
  | .add i _ => i
  | .copy i _ => i
  | .compose i _ _ => i

/-- Whether a draw call is an additive-combine (AddRenderPass) draw. -/
def DrawCall.isAdd : DrawCall → Bool
  | .add _ _ => true
  | _ => false

/-- One encoder.begin_render_pass scope: its label, attachments with their
operations, and the draw calls recorded inside it, in order. -/
structure RenderScope where
  label : String
  color_attachments : List RenderPassColorAttachment
  depth_stencil_attachment : Option RenderPassDepthStencilAttachment
  draws : List DrawCall
deriving DecidableEq

instance : Inhabited RenderScope :=
  ⟨{ label := "", color_attachments := [], depth_stencil_attachment := none, draws := [] }⟩

/-- window::Size. -/
structure Size where
  width : Nat
  height : Nat
deriving DecidableEq

/-- The window collaborator, consumed only for its current size. -/
structure Window where
  size : Size
deriving DecidableEq

/-- The opaque per-frame scene snapshot (read-only to this core). -/
inductive Scene
  | mk
deriving DecidableEq

/-- wgpu::PresentMode (only Fifo is used). -/
inductive PresentMode
  | fifo
deriving DecidableEq

/-- wgpu::SurfaceConfiguration. -/
structure SurfaceConfiguration where
  usage : List TextureUsage
  format : TextureFormat
  width : Nat
  height : Nat
  present_mode : PresentMode
deriving DecidableEq

/-- The presentation surface: its current configuration, if configured. -/
structure Surface where
  config : Option SurfaceConfiguration
deriving DecidableEq

/-- Maps a constructor threading the device allocator over a list,
left to right, exactly as the sequential iterator maps in Renderer::new do. -/
def mapWithDevice {α β : Type} (f : Device → α → β × Device) :
    Device → List α → List β × Device
  | device, [] => ([], device)
  | device, x :: rest =>
    let (y, device) := f device x
    let (ys, device) := mapWithDevice f device rest
    (y :: ys, device)

/-- RenderTargets: the set of intermediate target views owned by the renderer. -/
structure RenderTargets where
  color : TextureView
  depth : TextureView
  bright_pass : TextureView
  bloom_blur : List TextureView
  bloom : TextureView
deriving DecidableEq

/-- RenderTargets::create_render_target_texture_view: allocates one texture
with usage TEXTURE_BINDING | RENDER_ATTACHMENT and returns its view. -/
def RenderTargets.create_render_target_texture_view (device : Device)
    (label : String) (width height : Nat) (format : TextureFormat) :
    TextureView × Device :=
  ({ texId := device.nextId, label := label, width := width, height := height,
     format := format },
   { nextId := device.nextId + 1,
     allocs := device.allocs ++
       [{ label := label, width := width, height := height, format := format }] })

/-- RenderTargets::new: allocates color and depth at full size, then the
bright-pass target, sixteen blur targets and the bloom target at quarter
size, in that order. -/
def RenderTargets.new (device : Device) (width height : Nat) :
    RenderTargets × Device :=
  let (color, device) := RenderTargets.create_render_target_texture_view device
    "Color Texture" width height HDR_TEXTURE_FORMAT
  let (depth, device) := RenderTargets.create_render_target_texture_view device
    "Depth Texture" width height DEPTH_TEXTURE_FORMAT
  let (bright_pass, device) := RenderTargets.create_render_target_texture_view device
    "Bright Pass Texture" (width / 4) (height / 4) HDR_TEXTURE_FORMAT
  let (bloom_blur, device) := mapWithDevice
    (fun d i => RenderTargets.create_render_target_texture_view d
      (s!"Blur Texture {i}") (width / 4) (height / 4) HDR_TEXTURE_FORMAT)
    device (List.range 16)
  let (bloom, device) := RenderTargets.create_render_target_texture_view device
    "Bloom Texture" (width / 4) (height / 4) HDR_TEXTURE_FORMAT
  ({ color := color, depth := depth, bright_pass := bright_pass,
     bloom_blur := bloom_blur, bloom := bloom }, device)

/-- ParticleRenderer (scene pass; internals are an external collaborator,
only its construction parameters are modelled). -/
structure ParticleRenderer where
  id : Nat
  color_format : TextureFormat
  depth_format : TextureFormat
deriving DecidableEq

/-- ParticleRendererBuilder. -/
structure ParticleRendererBuilder where
  color_fmt : Option TextureFormat
  depth_fmt : Option TextureFormat
deriving DecidableEq

/-- ParticleRendererBuilder::new(scene). -/
def ParticleRendererBuilder.new (scene : Scene) : ParticleRendererBuilder :=
  { color_fmt := none, depth_fmt := none }

/-- ParticleRendererBuilder::color_target_format. -/
def ParticleRendererBuilder.color_target_format (b : ParticleRendererBuilder)
    (f : TextureFormat) : ParticleRendererBuilder :=
  { b with color_fmt := some f }

/-- ParticleRendererBuilder::depth_format. -/
def ParticleRendererBuilder.depth_format (b : ParticleRendererBuilder)
    (f : TextureFormat) : ParticleRendererBuilder :=
  { b with depth_fmt := some f }

/-- ParticleRendererBuilder::build(device). -/
def ParticleRendererBuilder.build (b : ParticleRendererBuilder)
    (device : Device) : ParticleRenderer × Device :=
  ({ id := device.nextId,
     color_format := b.color_fmt.getD HDR_TEXTURE_FORMAT,
     depth_format := b.depth_fmt.getD DEPTH_TEXTURE_FORMAT },
   { device with nextId := device.nextId + 1 })

/-- BrightPassRenderPass: stores the input color view and the output format. -/
structure BrightPassRenderPass where
  id : Nat
  src : TextureView
  format : TextureFormat
deriving DecidableEq

/-- BrightPassRenderPass::new(device, src, format). -/
def BrightPassRenderPass.new (device : Device) (src : TextureView)
    (format : TextureFormat) : BrightPassRenderPass × Device :=
  ({ id := device.nextId, src := src, format := format },
   { device with nextId := device.nextId + 1 })

/-- BlurRenderPass: stores the input view and the output format. -/
structure BlurRenderPass where
  id : Nat
  src : TextureView
  format : TextureFormat
deriving DecidableEq

instance : Inhabited BlurRenderPass :=
  ⟨{ id := 0, src := default, format := TextureFormat.rgba16Float }⟩

/-- BlurRenderPass::new(device, src, format). -/
def BlurRenderPass.new (device : Device) (src : TextureView)
    (format : TextureFormat) : BlurRenderPass × Device :=
  ({ id := device.nextId, src := src, format := format },
   { device with nextId := device.nextId + 1 })

/-- AddRenderPass (additive combine): stores its two input views and format. -/
structure AddRenderPass where
  id : Nat
  srcs : List TextureView
  format : TextureFormat
deriving DecidableEq

/-- AddRenderPass::new(device, srcs, format). -/
def AddRenderPass.new (device : Device) (srcs : List TextureView)
    (format : TextureFormat) : AddRenderPass × Device :=
  ({ id := device.nextId, srcs := srcs, format := format },
   { device with nextId := device.nextId + 1 })

/-- CopyRenderPass (copy-accumulate combine): stores one input view and format. -/
structure CopyRenderPass where
  id : Nat
  src : TextureView
  format : TextureFormat
deriving DecidableEq

instance : Inhabited CopyRenderPass :=
  ⟨{ id := 0, src := default, format := TextureFormat.rgba16Float }⟩

/-- CopyRenderPass::new(device, src, format). -/
def CopyRenderPass.new (device : Device) (src : TextureView)
    (format : TextureFormat) : CopyRenderPass × Device :=
  ({ id := device.nextId, src := src, format := format },
   { device with nextId := device.nextId + 1 })

/-- ComposeRenderPass: stores the color and bloom input views and the
surface output format. -/
structure ComposeRenderPass where
  id : Nat
  color : TextureView
  bloom : TextureView
  format : TextureFormat
deriving DecidableEq

/-- ComposeRenderPass::new(device, color, bloom, format). -/
def ComposeRenderPass.new (device : Device) (color bloom : TextureView)
    (format : TextureFormat) : ComposeRenderPass × Device :=
  ({ id := device.nextId, color := color, bloom := bloom, format := format },
   { device with nextId := device.nextId + 1 })

/-- The Renderer struct, field for field. -/
structure Renderer where
  surface : Surface
  surface_format : TextureFormat
  device : Device
  queue : Queue
  render_targets : RenderTargets
  particle_renderer : ParticleRenderer
  bright_pass_render_pass : BrightPassRenderPass
  bloom_blur_render_pass : BlurRenderPass
  bloom_combine_render_pass : AddRenderPass
  bloom_blur_render_passes : List BlurRenderPass
  bloom_combine_render_passes : List CopyRenderPass
  compose_render_pass : ComposeRenderPass
deriving DecidableEq

/-- Renderer::configure_surface. -/
def Renderer.configure_surface (surface : Surface) (format : TextureFormat)
    (width height : Nat) : Surface :=
  { surface with
    config := some
      { usage := [TextureUsage.RENDER_ATTACHMENT], format := format,
        width := width, height := height, present_mode := PresentMode.fifo } }

/-- The successful tail of Renderer::new, after the adapter, the preferred
surface format and the device have been obtained: configures the surface,
builds RenderTargets and constructs every pass, in source order. -/
def Renderer.build (surface_format : TextureFormat) (width height : Nat)
    (scene : Scene) : Renderer :=
  let surface := Renderer.configure_surface { config := none } surface_format
    width height
  let device : Device := { nextId := 0, allocs := [] }
  let (render_targets, device) := RenderTargets.new device width height
  let (particle_renderer, device) :=
    (((ParticleRendererBuilder.new scene).color_target_format
        HDR_TEXTURE_FORMAT).depth_format DEPTH_TEXTURE_FORMAT).build device
  let (bright_pass_render_pass, device) := BrightPassRenderPass.new device
    render_targets.color HDR_TEXTURE_FORMAT
  let (bloom_blur_render_pass, device) := BlurRenderPass.new device
    render_targets.bright_pass HDR_TEXTURE_FORMAT
  let src_texture_views := render_targets.bright_pass ::
    render_targets.bloom_blur.take (render_targets.bloom_blur.length - 1)
  let (bloom_blur_render_passes, device) := mapWithDevice
    (fun d src => BlurRenderPass.new d src HDR_TEXTURE_FORMAT)
    device src_texture_views
  let (bloom_combine_render_pass, device) := AddRenderPass.new device
    [render_targets.bloom_blur.getD 0 default,
     render_targets.bloom_blur.getD 1 default] HDR_TEXTURE_FORMAT
  let (bloom_combine_render_passes, device) := mapWithDevice
    (fun d v => CopyRenderPass.new d v HDR_TEXTURE_FORMAT)
    device render_targets.bloom_blur
  let (compose_render_pass, device) := ComposeRenderPass.new device
    render_targets.color render_targets.bloom surface_format
  { surface := surface, surface_format := surface_format, device := device,
    queue := Queue.mk, render_targets := render_targets,
    particle_renderer := particle_renderer,
    bright_pass_render_pass := bright_pass_render_pass,
    bloom_blur_render_pass := bloom_blur_render_pass,
    bloom_combine_render_pass := bloom_combine_render_pass,
    bloom_blur_render_passes := bloom_blur_render_passes,
    bloom_combine_render_passes := bloom_combine_render_passes,
    compose_render_pass := compose_render_pass }

/-- The adapter handed back by the wgpu instance: what
get_preferred_format and request_device answer on it. -/
structure Adapter where
  preferredFormat : Option TextureFormat
  deviceResult : Except String Unit

/-- The wgpu instance environment Renderer::new negotiates against. -/
structure Gpu where
  adapter : Option Adapter

/-- The fatal construction errors of Renderer::new, in propagation order. -/
inductive RendererError
  | noAdapterFound
  | noPreferredFormatFound
  | requestDeviceFailed (msg : String)
deriving DecidableEq

/-- Renderer::new(window, scene): request an adapter (error "No adapter
found" when none), query the preferred surface format (error "No preferred
format found" when none), request the device (propagating its error), then
build the whole renderer. -/
def Renderer.new (gpu : Gpu) (window : Window) (scene : Scene) :
    Except RendererError Renderer :=
  match gpu.adapter with
  | none => Except.error RendererError.noAdapterFound
  | some adapter =>
    match adapter.preferredFormat with
    | none => Except.error RendererError.noPreferredFormatFound
    | some surface_format =>
      match adapter.deviceResult with
      | Except.error e => Except.error (RendererError.requestDeviceFailed e)
      | Except.ok _ =>
        Except.ok (Renderer.build surface_format window.size.width
          window.size.height scene)

/-- Renderer::resize: reconfigures the surface, replaces RenderTargets and
rebuilds exactly the bright-pass pass, the standalone blur pass and the
compose pass — and nothing else (as in the source). -/
def Renderer.resize (self : Renderer) (size : Size) : Renderer :=
  let surface := Renderer.configure_surface self.surface self.surface_format
    size.width size.height
  let (render_targets, device) := RenderTargets.new self.device
    size.width size.height
  let (bright_pass_render_pass, device) := BrightPassRenderPass.new device
    render_targets.color HDR_TEXTURE_FORMAT
  let (bloom_blur_render_pass, device) := BlurRenderPass.new device
    render_targets.bright_pass HDR_TEXTURE_FORMAT
  let (compose_render_pass, device) := ComposeRenderPass.new device
    render_targets.color render_targets.bloom self.surface_format
  { self with
    surface := surface
    device := device
    render_targets := render_targets
    bright_pass_render_pass := bright_pass_render_pass
    bloom_blur_render_pass := bloom_blur_render_pass
    compose_render_pass := compose_render_pass }

/-- The color-attachment operations used by every color-family scope:
clear to transparent, store. -/
def clearStoreOps : Operations Color :=
  { load := LoadOp.clear Color.TRANSPARENT, store := true }

/-- Renderer::render(scene): updates the per-frame passes, then records, in
order, the particle scope, the bright-pass scope, one blur scope per blur
target (drawing the cascade pass of the same index), the combine scope
(drawing every copy pass in order), and the compose scope targeting the
acquired surface frame; returns the unchanged renderer state and the
recorded scopes. -/
def Renderer.render (self : Renderer) (scene : Scene) :
    Renderer × List RenderScope :=
  let particleScope : RenderScope :=
    { label := "Particle Render Pass",
      color_attachments :=
        [{ view := AttachmentView.target self.render_targets.color,
           resolve_target := none, ops := clearStoreOps }],
      depth_stencil_attachment := some
        { view := self.render_targets.depth,
          depth_ops := some { load := LoadOp.clear 1, store := false },
          stencil_ops := none },
      draws := [DrawCall.particle self.particle_renderer.id] }
  let brightScope : RenderScope :=
    { label := "Bright Pass Render Pass",
      color_attachments :=
        [{ view := AttachmentView.target self.render_targets.bright_pass,
           resolve_target := none, ops := clearStoreOps }],
      depth_stencil_attachment := none,
      draws := [DrawCall.bright_pass self.bright_pass_render_pass.id
        self.bright_pass_render_pass.src] }
  let blurScopes : List RenderScope :=
    (List.range self.render_targets.bloom_blur.length).map fun i =>
      { label := s!"Bloom Blur Render Pass {i}",
        color_attachments :=
          [{ view := AttachmentView.target
               (self.render_targets.bloom_blur.getD i default),
             resolve_target := none, ops := clearStoreOps }],
        depth_stencil_attachment := none,
        draws := [DrawCall.blur (self.bloom_blur_render_passes.getD i default).id
          (self.bloom_blur_render_passes.getD i default).src] }
  let combineScope : RenderScope :=
    { label := "Bloom Combine Render Pass",
      color_attachments :=
        [{ view := AttachmentView.target self.render_targets.bloom,
           resolve_target := none, ops := clearStoreOps }],
      depth_stencil_attachment := none,
      draws := self.bloom_combine_render_passes.map fun p =>
        DrawCall.copy p.id p.src }
  let composeScope : RenderScope :=
    { label := "Compose Render Pass",
      color_attachments :=
        [{ view := AttachmentView.surfaceFrame,
           resolve_target := none, ops := clearStoreOps }],
      depth_stencil_attachment := none,
      draws := [DrawCall.compose self.compose_render_pass.id
        self.compose_render_pass.color self.compose_render_pass.bloom] }
  (self, [particleScope, brightScope] ++ blurScopes ++
    [combineScope, composeScope])

/-- The allocation order claimed for RenderTargets::new(device, w, h): one
color and one depth target at full resolution, then the bright-pass target,
sixteen blur targets and the bloom target at quarter resolution. -/
def claimedAllocationOrder (w h : Nat) : List TextureAlloc :=
  [{ label := "Color Texture", width := w, height := h, format := HDR_TEXTURE_FORMAT },
   { label := "Depth Texture", width := w, height := h, format := DEPTH_TEXTURE_FORMAT },
   { label := "Bright Pass Texture", width := w / 4, height := h / 4, format := HDR_TEXTURE_FORMAT },
   { label := "Blur Texture 0", width := w / 4, height := h / 4, format := HDR_TEXTURE_FORMAT },
   { label := "Blur Texture 1", width := w / 4, height := h / 4, format := HDR_TEXTURE_FORMAT },
   { label := "Blur Texture 2", width := w / 4, height := h / 4, format := HDR_TEXTURE_FORMAT },
   { label := "Blur Texture 3", width := w / 4, height := h / 4, format := HDR_TEXTURE_FORMAT },
   { label := "Blur Texture 4", width := w / 4, height := h / 4, format := HDR_TEXTURE_FORMAT },
   { label := "Blur Texture 5", width := w / 4, height := h / 4, format := HDR_TEXTURE_FORMAT },
   { label := "Blur Texture 6", width := w / 4, height := h / 4, format := HDR_TEXTURE_FORMAT },
   { label := "Blur Texture 7", width := w / 4, height := h / 4, format := HDR_TEXTURE_FORMAT },
   { label := "Blur Texture 8", width := w / 4, height := h / 4, format := HDR_TEXTURE_FORMAT },
   { label := "Blur Texture 9", width := w / 4, height := h / 4, format := HDR_TEXTURE_FORMAT },
   { label := "Blur Texture 10", width := w / 4, height := h / 4, format := HDR_TEXTURE_FORMAT },
   { label := "Blur Texture 11", width := w / 4, height := h / 4, format := HDR_TEXTURE_FORMAT },
   { label := "Blur Texture 12", width := w / 4, height := h / 4, format := HDR_TEXTURE_FORMAT },
   { label := "Blur Texture 13", width := w / 4, height := h / 4, format := HDR_TEXTURE_FORMAT },
   { label := "Blur Texture 14", width := w / 4, height := h / 4, format := HDR_TEXTURE_FORMAT },
   { label := "Blur Texture 15", width := w / 4, height := h / 4, format := HDR_TEXTURE_FORMAT },
   { label := "Bloom Texture", width := w / 4, height := h / 4, format := HDR_TEXTURE_FORMAT }]

/-- The renderer as constructed at output size 640x480 (bloom-family targets
160x120), before any resize. -/
def preResizeRenderer : Renderer :=
  Renderer.build TextureFormat.bgra8Unorm 640 480 Scene.mk

/-- The same renderer after resize to 320x240 (new bloom-family targets are
80x60). -/
def postResizeRenderer : Renderer :=
  preResizeRenderer.resize { width := 320, height := 240 }


/-- Claim C1 (code_bug evidence): after resize(320, 240) of a renderer built at
640x480, the bright-pass, standalone-blur and compose passes are indeed rebuilt
against the new RenderTargets, but the sixteen blur-cascade passes, the sixteen
copy-accumulate combine passes and the additive combine pass are bit-for-bit
unchanged: cascade stage 0 still reads the old 160x120 bright-pass target (a
different texture than the new 80x60 one), and the copy passes still read the
old blur targets.  This refutes the claim that every pass holding a direct view
handle is reconstructed with only the scene pass left untouched. -/
theorem c1_resize_leaves_stale_cascade :
    postResizeRenderer.bright_pass_render_pass.src = postResizeRenderer.render_targets.color ∧
    postResizeRenderer.bloom_blur_render_pass.src = postResizeRenderer.render_targets.bright_pass ∧
    postResizeRenderer.compose_render_pass.color = postResizeRenderer.render_targets.color ∧
    postResizeRenderer.compose_render_pass.bloom = postResizeRenderer.render_targets.bloom ∧
    postResizeRenderer.bloom_blur_render_passes = preResizeRenderer.bloom_blur_render_passes ∧
    postResizeRenderer.bloom_combine_render_passes = preResizeRenderer.bloom_combine_render_passes ∧
    postResizeRenderer.bloom_combine_render_pass = preResizeRenderer.bloom_combine_render_pass ∧
    (postResizeRenderer.bloom_blur_render_passes.getD 0 default).src =
      preResizeRenderer.render_targets.bright_pass ∧
    (postResizeRenderer.bloom_blur_render_passes.getD 0 default).src.texId ≠
      postResizeRenderer.render_targets.bright_pass.texId ∧
    (postResizeRenderer.bloom_blur_render_passes.getD 0 default).src.width = 160 ∧
    postResizeRenderer.render_targets.bright_pass.width = 80 ∧
    postResizeRenderer.bloom_combine_render_passes.map CopyRenderPass.src =
      preResizeRenderer.render_targets.bloom_blur := by decide

/-- Claim C2: a single render(scene) call records exactly one scene (particle)
render-pass scope, then one bright-pass scope, then sixteen blur scopes in
ascending cascade-index order, then one combine scope whose draws are one
copy-accumulate sub-draw per cascade stage in cascade order, then one compose
scope, in that fixed order, and no scope is recorded twice (the twenty scope
labels are pairwise distinct). -/
theorem c2_render_scope_sequence (f : TextureFormat) (w h : Nat) (sc scene : Scene) :
    ((Renderer.build f w h sc).render scene).2.map RenderScope.label =
      ["Particle Render Pass", "Bright Pass Render Pass",
       "Bloom Blur Render Pass 0", "Bloom Blur Render Pass 1",
       "Bloom Blur Render Pass 2", "Bloom Blur Render Pass 3",
       "Bloom Blur Render Pass 4", "Bloom Blur Render Pass 5",
       "Bloom Blur Render Pass 6", "Bloom Blur Render Pass 7",
       "Bloom Blur Render Pass 8", "Bloom Blur Render Pass 9",
       "Bloom Blur Render Pass 10", "Bloom Blur Render Pass 11",
       "Bloom Blur Render Pass 12", "Bloom Blur Render Pass 13",
       "Bloom Blur Render Pass 14", "Bloom Blur Render Pass 15",
       "Bloom Combine Render Pass", "Compose Render Pass"] ∧
    (((Renderer.build f w h sc).render scene).2.map RenderScope.label).Nodup ∧
    ((Renderer.build f w h sc).render scene).2.map RenderScope.draws =
      [[DrawCall.particle (Renderer.build f w h sc).particle_renderer.id],
       [DrawCall.bright_pass (Renderer.build f w h sc).bright_pass_render_pass.id
          (Renderer.build f w h sc).bright_pass_render_pass.src]] ++
      ((List.range 16).map fun i =>
        [DrawCall.blur ((Renderer.build f w h sc).bloom_blur_render_passes.getD i default).id
           ((Renderer.build f w h sc).bloom_blur_render_passes.getD i default).src]) ++
      [(Renderer.build f w h sc).bloom_combine_render_passes.map fun p =>
         DrawCall.copy p.id p.src,
       [DrawCall.compose (Renderer.build f w h sc).compose_render_pass.id
          (Renderer.build f w h sc).compose_render_pass.color
          (Renderer.build f w h sc).compose_render_pass.bloom]] := by
  have h0 : ((Renderer.build f w h sc).render scene).2.map RenderScope.label =
      ((Renderer.build TextureFormat.bgra8Unorm 1 1 Scene.mk).render Scene.mk).2.map
        RenderScope.label := rfl
  have h1 : ((Renderer.build TextureFormat.bgra8Unorm 1 1 Scene.mk).render Scene.mk).2.map
      RenderScope.label =
      ["Particle Render Pass", "Bright Pass Render Pass",
       "Bloom Blur Render Pass 0", "Bloom Blur Render Pass 1",
       "Bloom Blur Render Pass 2", "Bloom Blur Render Pass 3",
       "Bloom Blur Render Pass 4", "Bloom Blur Render Pass 5",
       "Bloom Blur Render Pass 6", "Bloom Blur Render Pass 7",
       "Bloom Blur Render Pass 8", "Bloom Blur Render Pass 9",
       "Bloom Blur Render Pass 10", "Bloom Blur Render Pass 11",
       "Bloom Blur Render Pass 12", "Bloom Blur Render Pass 13",
       "Bloom Blur Render Pass 14", "Bloom Blur Render Pass 15",
       "Bloom Combine Render Pass", "Compose Render Pass"] := by decide
  refine ⟨h0.trans h1, ?_, rfl⟩
  rw [h0.trans h1]
  decide

/-- Claim C3: for every output size (w, h) and any device state, RenderTargets
construction gives the bright-pass target, all sixteen blur targets and the
bloom-combine target exactly the resolution (w / 4, h / 4) by integer floor
division and the shared HDR format; a resize installs exactly the RenderTargets
built at the new size, and (1280, 720) yields (320, 180). -/
theorem c3_bloom_family_resolution (d : Device) (w h : Nat) (f : TextureFormat)
    (w0 h0 : Nat) (sc : Scene) :
    ((RenderTargets.new d w h).1.bright_pass.width,
      (RenderTargets.new d w h).1.bright_pass.height,
      (RenderTargets.new d w h).1.bright_pass.format) = (w / 4, h / 4, HDR_TEXTURE_FORMAT) ∧
    (RenderTargets.new d w h).1.bloom_blur.map (fun v => (v.width, v.height, v.format)) =
      List.replicate 16 (w / 4, h / 4, HDR_TEXTURE_FORMAT) ∧
    ((RenderTargets.new d w h).1.bloom.width,
      (RenderTargets.new d w h).1.bloom.height,
      (RenderTargets.new d w h).1.bloom.format) = (w / 4, h / 4, HDR_TEXTURE_FORMAT) ∧
    ((Renderer.build f w0 h0 sc).resize { width := w, height := h }).render_targets =
      (RenderTargets.new (Renderer.build f w0 h0 sc).device w h).1 ∧
    (RenderTargets.new d 1280 720).1.bright_pass.width = 320 ∧
    (RenderTargets.new d 1280 720).1.bright_pass.height = 180 :=
  ⟨rfl, rfl, rfl, rfl, rfl, rfl⟩

/-- Claim C4: in the blur cascade as constructed, stage 0's input view is the
bright-pass target and the input view of stage i is the blur target i - 1,
which is exactly the color attachment that the blur scope i - 1 of a frame
writes; and no stage's input texture is its own write target. -/
theorem c4_cascade_wiring (f : TextureFormat) (w h : Nat) (sc scene : Scene) :
    (Renderer.build f w h sc).bloom_blur_render_passes.map BlurRenderPass.src =
      (Renderer.build f w h sc).render_targets.bright_pass ::
        ((List.range 15).map fun i =>
          (Renderer.build f w h sc).render_targets.bloom_blur.getD i default) ∧
    ((List.range 16).map fun i =>
      ((((Renderer.build f w h sc).render scene).2.getD (2 + i) default).color_attachments.map
        RenderPassColorAttachment.view)) =
      ((List.range 16).map fun i =>
        [AttachmentView.target ((Renderer.build f w h sc).render_targets.bloom_blur.getD i default)]) ∧
    ((List.range 16).all fun i =>
      ((Renderer.build f w h sc).bloom_blur_render_passes.getD i default).src.texId !=
        ((Renderer.build f w h sc).render_targets.bloom_blur.getD i default).texId) = true :=
  ⟨rfl, rfl, rfl⟩

/-- Claim C5: RenderTargets::new(device, w, h) performs exactly the nineteen
texture allocations of claimedAllocationOrder, in that order, appended to
whatever the device had allocated before; every allocated target is stored in
the returned value (same label, size and format, in the same order), so no
target is missing or lazily allocated. -/
theorem c5_allocation_order (d : Device) (w h : Nat) :
    (RenderTargets.new d w h).2.allocs = d.allocs ++ claimedAllocationOrder w h ∧
    ([(RenderTargets.new d w h).1.color, (RenderTargets.new d w h).1.depth,
      (RenderTargets.new d w h).1.bright_pass] ++ (RenderTargets.new d w h).1.bloom_blur ++
      [(RenderTargets.new d w h).1.bloom]).map
        (fun v => TextureAlloc.mk v.label v.width v.height v.format) =
      claimedAllocationOrder w h ∧
    (RenderTargets.new d w h).1.bloom_blur.length = 16 := by
  refine ⟨?_, rfl, rfl⟩
  have key : (RenderTargets.new d w h).2.allocs =
      d.allocs
        ++ [{ label := "Color Texture", width := w, height := h, format := HDR_TEXTURE_FORMAT }]
        ++ [{ label := "Depth Texture", width := w, height := h, format := DEPTH_TEXTURE_FORMAT }]
        ++ [{ label := "Bright Pass Texture", width := w / 4, height := h / 4, format := HDR_TEXTURE_FORMAT }]
        ++ [{ label := "Blur Texture 0", width := w / 4, height := h / 4, format := HDR_TEXTURE_FORMAT }]
        ++ [{ label := "Blur Texture 1", width := w / 4, height := h / 4, format := HDR_TEXTURE_FORMAT }]
        ++ [{ label := "Blur Texture 2", width := w / 4, height := h / 4, format := HDR_TEXTURE_FORMAT }]
        ++ [{ label := "Blur Texture 3", width := w / 4, height := h / 4, format := HDR_TEXTURE_FORMAT }]
        ++ [{ label := "Blur Texture 4", width := w / 4, height := h / 4, format := HDR_TEXTURE_FORMAT }]
        ++ [{ label := "Blur Texture 5", width := w / 4, height := h / 4, format := HDR_TEXTURE_FORMAT }]
        ++ [{ label := "Blur Texture 6", width := w / 4, height := h / 4, format := HDR_TEXTURE_FORMAT }]
        ++ [{ label := "Blur Texture 7", width := w / 4, height := h / 4, format := HDR_TEXTURE_FORMAT }]
        ++ [{ label := "Blur Texture 8", width := w / 4, height := h / 4, format := HDR_TEXTURE_FORMAT }]
        ++ [{ label := "Blur Texture 9", width := w / 4, height := h / 4, format := HDR_TEXTURE_FORMAT }]
        ++ [{ label := "Blur Texture 10", width := w / 4, height := h / 4, format := HDR_TEXTURE_FORMAT }]
        ++ [{ label := "Blur Texture 11", width := w / 4, height := h / 4, format := HDR_TEXTURE_FORMAT }]
        ++ [{ label := "Blur Texture 12", width := w / 4, height := h / 4, format := HDR_TEXTURE_FORMAT }]
        ++ [{ label := "Blur Texture 13", width := w / 4, height := h / 4, format := HDR_TEXTURE_FORMAT }]
        ++ [{ label := "Blur Texture 14", width := w / 4, height := h / 4, format := HDR_TEXTURE_FORMAT }]
        ++ [{ label := "Blur Texture 15", width := w / 4, height := h / 4, format := HDR_TEXTURE_FORMAT }]
        ++ [{ label := "Bloom Texture", width := w / 4, height := h / 4, format := HDR_TEXTURE_FORMAT }] := rfl
  rw [key, claimedAllocationOrder]
  simp [List.append_assoc]

/-- Claim C6: in every scope recorded by render(scene), the depth attachment
(when present) is operated as clear-to-1.0 and discard (store = false) with no
stencil operations, and every color attachment is operated as
clear-to-transparent and store; the scene scope's depth attachment is the
depth target with exactly those operations. -/
theorem c6_attachment_ops (f : TextureFormat) (w h : Nat) (sc scene : Scene) :
    ((((Renderer.build f w h sc).render scene).2.all fun s =>
       (match s.depth_stencil_attachment with
        | none => true
        | some dsa =>
          decide (dsa.depth_ops = some { load := LoadOp.clear 1, store := false }) &&
          decide (dsa.stencil_ops = none)) &&
       (s.color_attachments.all fun ca =>
          decide (ca.ops = { load := LoadOp.clear Color.TRANSPARENT, store := true }))) = true) ∧
    (((Renderer.build f w h sc).render scene).2.getD 0 default).depth_stencil_attachment =
      some { view := (Renderer.build f w h sc).render_targets.depth,
             depth_ops := some { load := LoadOp.clear 1, store := false },
             stencil_ops := none } :=
  ⟨rfl, rfl⟩

/-- Claim C7: Renderer::new fails fatally, returning the first error and no
renderer, when no adapter is found, when no preferred surface format is found,
or when device creation fails; and any successfully returned renderer was built
only after all three negotiation steps succeeded (no partial construction). -/
theorem c7_new_error_propagation (gpu : Gpu) (window : Window) (sc : Scene) :
    (gpu.adapter = none →
      Renderer.new gpu window sc = Except.error RendererError.noAdapterFound) ∧
    (∀ a, gpu.adapter = some a → a.preferredFormat = none →
      Renderer.new gpu window sc = Except.error RendererError.noPreferredFormatFound) ∧
    (∀ a fmt e, gpu.adapter = some a → a.preferredFormat = some fmt →
      a.deviceResult = Except.error e →
      Renderer.new gpu window sc = Except.error (RendererError.requestDeviceFailed e)) ∧
    (∀ r, Renderer.new gpu window sc = Except.ok r →
      ∃ a fmt, gpu.adapter = some a ∧ a.preferredFormat = some fmt ∧
        a.deviceResult = Except.ok () ∧
        r = Renderer.build fmt window.size.width window.size.height sc) := by
  refine ⟨?_, ?_, ?_, ?_⟩
  · intro hnone
    simp [Renderer.new, hnone]
  · intro a ha hf
    simp [Renderer.new, ha, hf]
  · intro a fmt e ha hf hd
    simp [Renderer.new, ha, hf, hd]
  · intro r hr
    cases hga : gpu.adapter with
    | none => simp [Renderer.new, hga] at hr
    | some a =>
      cases hfa : a.preferredFormat with
      | none => simp [Renderer.new, hga, hfa] at hr
      | some fmt =>
        cases hda : a.deviceResult with
        | error e => simp [Renderer.new, hga, hfa, hda] at hr
        | ok u =>
          simp only [Renderer.new, hga, hfa, hda, Except.ok.injEq] at hr
          exact ⟨a, fmt, rfl, hfa, by cases u; exact hda, hr.symm⟩

/-- Witness for claim C7 at concrete environments: a missing adapter, a missing
preferred format, and a failing device request each produce the matching
error. -/
theorem c7_new_error_propagation_witness :
    Renderer.new { adapter := none } { size := { width := 640, height := 480 } } Scene.mk =
      Except.error RendererError.noAdapterFound ∧
    Renderer.new { adapter := some { preferredFormat := none, deviceResult := Except.ok () } }
      { size := { width := 640, height := 480 } } Scene.mk =
      Except.error RendererError.noPreferredFormatFound ∧
    Renderer.new { adapter := some { preferredFormat := some TextureFormat.bgra8Unorm, deviceResult := Except.error "device error" } } { size := { width := 640, height := 480 } } Scene.mk =
      Except.error (RendererError.requestDeviceFailed "device error") :=
  ⟨(c7_new_error_propagation _ _ _).1 rfl,
   (c7_new_error_propagation _ _ _).2.1 _ rfl rfl,
   (c7_new_error_propagation _ _ _).2.2.1 _ _ _ rfl rfl rfl⟩

/-- Claim C8: a frame contains no draw of the additive-combine pass and no draw
by the standalone blur pass or the additive combine pass (by pass identity);
the single combine scope targets the bloom target and draws exactly the
copy-accumulate passes in cascade order; while both unused passes were still
constructed at Renderer::new (the additive pass over blur targets 0 and 1, the
standalone blur pass over the bright-pass target). -/
theorem c8_single_combine_strategy (f : TextureFormat) (w h : Nat) (sc scene : Scene) :
    ((((Renderer.build f w h sc).render scene).2.map RenderScope.draws).flatten.filter
        DrawCall.isAdd) = [] ∧
    ((((Renderer.build f w h sc).render scene).2.map RenderScope.draws).flatten.filter
        (fun dc => dc.passId == (Renderer.build f w h sc).bloom_blur_render_pass.id ||
                   dc.passId == (Renderer.build f w h sc).bloom_combine_render_pass.id)) = [] ∧
    (((Renderer.build f w h sc).render scene).2.getD 18 default).draws =
      ((Renderer.build f w h sc).bloom_combine_render_passes.map fun p =>
        DrawCall.copy p.id p.src) ∧
    (((Renderer.build f w h sc).render scene).2.getD 18 default).color_attachments =
      [{ view := AttachmentView.target (Renderer.build f w h sc).render_targets.bloom,
         resolve_target := none, ops := clearStoreOps }] ∧
    (Renderer.build f w h sc).bloom_combine_render_pass.srcs =
      [(Renderer.build f w h sc).render_targets.bloom_blur.getD 0 default,
       (Renderer.build f w h sc).render_targets.bloom_blur.getD 1 default] ∧
    (Renderer.build f w h sc).bloom_blur_render_pass.src =
      (Renderer.build f w h sc).render_targets.bright_pass :=
  ⟨rfl, rfl, rfl, rfl, rfl, rfl⟩

/-- Claim C9: no minimum-size guard or clamping exists on any size input: the
surface is configured at exactly (w, h), the full-resolution targets are
requested at exactly (w, h), the bloom family at exactly (w / 4, h / 4), both
at construction and resize, and whenever w < 4 or h < 4 the bloom-family
targets are requested with a zero dimension. -/
theorem c9_no_min_size_guard (d : Device) (w h : Nat) (s : Surface) (fmt f2 : TextureFormat)
    (w0 h0 : Nat) (sc : Scene) (hwh : w < 4 ∨ h < 4) :
    ((RenderTargets.new d w h).1.bright_pass.width = 0 ∨
     (RenderTargets.new d w h).1.bright_pass.height = 0) ∧
    (RenderTargets.new d w h).1.color.width = w ∧
    (RenderTargets.new d w h).1.color.height = h ∧
    (RenderTargets.new d w h).1.bright_pass.width = w / 4 ∧
    (RenderTargets.new d w h).1.bright_pass.height = h / 4 ∧
    (RenderTargets.new d w h).1.bloom_blur.map (fun v => (v.width, v.height)) =
      List.replicate 16 (w / 4, h / 4) ∧
    (RenderTargets.new d w h).1.bloom.width = w / 4 ∧
    (RenderTargets.new d w h).1.bloom.height = h / 4 ∧
    (Renderer.configure_surface s fmt w h).config = some
      { usage := [TextureUsage.RENDER_ATTACHMENT], format := fmt, width := w, height := h,
        present_mode := PresentMode.fifo } ∧
    ((Renderer.build f2 w0 h0 sc).resize { width := w, height := h }).render_targets.bright_pass.width = w / 4 ∧
    ((Renderer.build f2 w0 h0 sc).resize { width := w, height := h }).surface.config = some
      { usage := [TextureUsage.RENDER_ATTACHMENT], format := f2, width := w, height := h,
        present_mode := PresentMode.fifo } := by
  refine ⟨?_, rfl, rfl, rfl, rfl, rfl, rfl, rfl, rfl, rfl, rfl⟩
  cases hwh with
  | inl hw => exact Or.inl (show w / 4 = 0 from Nat.div_eq_of_lt hw)
  | inr hh => exact Or.inr (show h / 4 = 0 from Nat.div_eq_of_lt hh)

/-- Witness for claim C9 at the concrete size (3, 3): every bloom-family target
is requested at 0x0 while the surface and full-resolution targets still get
exactly 3x3. -/
theorem c9_no_min_size_guard_witness :
    (3 < 4 ∨ 3 < 4) ∧
    (((RenderTargets.new { nextId := 0, allocs := [] } 3 3).1.bright_pass.width = 0 ∨
      (RenderTargets.new { nextId := 0, allocs := [] } 3 3).1.bright_pass.height = 0) ∧
     (RenderTargets.new { nextId := 0, allocs := [] } 3 3).1.color.width = 3 ∧
     (RenderTargets.new { nextId := 0, allocs := [] } 3 3).1.color.height = 3 ∧
     (RenderTargets.new { nextId := 0, allocs := [] } 3 3).1.bright_pass.width = 0 ∧
     (RenderTargets.new { nextId := 0, allocs := [] } 3 3).1.bright_pass.height = 0 ∧
     (RenderTargets.new { nextId := 0, allocs := [] } 3 3).1.bloom_blur.map
       (fun v => (v.width, v.height)) = List.replicate 16 (0, 0) ∧
     (RenderTargets.new { nextId := 0, allocs := [] } 3 3).1.bloom.width = 0 ∧
     (RenderTargets.new { nextId := 0, allocs := [] } 3 3).1.bloom.height = 0 ∧
     (Renderer.configure_surface { config := none } TextureFormat.bgra8Unorm 3 3).config = some
       { usage := [TextureUsage.RENDER_ATTACHMENT], format := TextureFormat.bgra8Unorm,
         width := 3, height := 3, present_mode := PresentMode.fifo } ∧
     ((Renderer.build TextureFormat.bgra8Unorm 640 480 Scene.mk).resize
        { width := 3, height := 3 }).render_targets.bright_pass.width = 0 ∧
     ((Renderer.build TextureFormat.bgra8Unorm 640 480 Scene.mk).resize
        { width := 3, height := 3 }).surface.config = some
       { usage := [TextureUsage.RENDER_ATTACHMENT], format := TextureFormat.bgra8Unorm,
         width := 3, height := 3, present_mode := PresentMode.fifo }) :=
  ⟨by decide,
   c9_no_min_size_guard { nextId := 0, allocs := [] } 3 3 { config := none }
     TextureFormat.bgra8Unorm TextureFormat.bgra8Unorm 640 480 Scene.mk (Or.inl (by decide))⟩

/-- Claim C10: render(scene) never replaces or rewires any stored renderer
state: the renderer value returned by a render call is exactly the input
renderer (same RenderTargets, pass instances, surface format, device and queue
handles). -/
theorem c10_render_replaces_no_state (r : Renderer) (scene : Scene) :
    (r.render scene).1 = r := rfl

end SteelTadpole
